import Mathlib

/-!
Shallow embedding of the e-commerce checkout/inventory core

This file embeds the business logic of the `app` package (services
`product.py`, `cart.py`, `order.py` and the order router) as pure Lean
functions over an explicit database state, and proves the frozen claims
about it.

Modelling conventions:
* Mongo documents live in association lists keyed by ids (`Nat`).
* Python `float` prices are modelled as exact rationals `ℚ`; Python `int`
  quantities and stock counts as `ℤ` (pydantic validators such as `gt=0`,
  `ge=0` are modelled as explicit side conditions / boundary checks).
* A service call returns `DB × Except PyError α`: the state after the call
  together with either the produced value or the raised exception.  A raise
  leaves exactly the saves already performed in the state, matching the
  Python control flow (`save` calls already executed are not undone).
* Python dynamic typing matters in two places and is modelled explicitly:
  - `order.py` calls `update_product(product_id, ±quantity)` with an `int`
    in the position of the `ProductUpdate` schema; the body's first
    attribute access `product_data.name` then raises `AttributeError`.
    The argument is therefore embedded as a sum `ProductDataArg`.
  - `cart.py::add_to_cart` appends a raw `dict` to the typed `items` list;
    the response-total loop `sum(item.price * ...)` then raises
    `AttributeError` on that dict — after the cart document was saved.
* `build_order_response` constructs `OrderItemResponse(product_id, name,
  quantity, price)`, but the schema `OrderItemResponse` declares the
  required field `description` (and no `quantity`): pydantic raises a
  validation error for every order with at least one item.
-/

namespace ECom

abbrev ProductId := Nat
abbrev UserId := Nat
abbrev OrderId := Nat

/-- From `app/models/product.py` — `Product` document.
pydantic validators: `price` gt 0, `stock` ge 0 (checked at construction,
see `Product.Valid`). -/
structure Product where
  name : String
  description : Option String
  price : ℚ
  stock : ℤ
  category : Option String
  tags : List String
  is_active : Bool
deriving Repr, DecidableEq

/-- The pydantic field validators of the `Product` model. -/
def Product.Valid (p : Product) : Prop := 0 < p.price ∧ 0 ≤ p.stock

instance (p : Product) : Decidable p.Valid := by
  unfold Product.Valid; infer_instance

/-- From `app/models/cart.py` — `CartItem` embedded model
(`quantity` gt 0, `price` gt 0). -/
structure CartItem where
  product_id : ProductId
  quantity : ℤ
  price : ℚ
deriving Repr, DecidableEq

/-- From `app/models/cart.py` — `Cart` document (timestamps omitted: no claim
mentions them). -/
structure Cart where
  user_id : UserId
  items : List CartItem
deriving Repr, DecidableEq

/-- From `app/models/order.py` — `OrderStatus` enum. -/
inductive OrderStatus where
  | pending
  | confirmed
  | shipped
  | delivered
  | cancelled
deriving Repr, DecidableEq

/-- The `.value` of the Python enum member. -/
def OrderStatus.value : OrderStatus → String
  | .pending => "pending"
  | .confirmed => "confirmed"
  | .shipped => "shipped"
  | .delivered => "delivered"
  | .cancelled => "cancelled"

/-- From `app/models/order.py` — `OrderItem` embedded model. -/
structure OrderItem where
  product_id : ProductId
  name : String
  quantity : ℤ
  price : ℚ
deriving Repr, DecidableEq

/-- From `app/models/order.py` — `Order` document (timestamps omitted).
pydantic validator: `total` gt 0; each `OrderItem` has `quantity` gt 0 and
`price` gt 0. -/
structure Order where
  user_id : UserId
  items : List OrderItem
  total : ℚ
  status : OrderStatus
  shipping_address : Option String
deriving Repr, DecidableEq

/-- The MongoDB state visible to the services: products, carts (at most one
per user, fetched by `find_one(Cart.user_id == user_id)`), orders, and the
id the store will hand to the next inserted order. -/
structure DB where
  products : List (ProductId × Product)
  carts : List (UserId × Cart)
  orders : List (OrderId × Order)
  next_order_id : OrderId
deriving Repr, DecidableEq

/-- Embeds `Collection.get(id)` / `find_one` on an id-keyed collection. -/
def findDoc {α : Type} : List (Nat × α) → Nat → Option α
  | [], _ => none
  | (k, v) :: rest, key => if k = key then some v else findDoc rest key

/-- Embeds `document.save()` for a document fetched from the collection: replace
the entry with the given key. -/
def saveDoc {α : Type} (l : List (Nat × α)) (key : Nat) (v : α) :
    List (Nat × α) :=
  l.map fun kv => if kv.1 = key then (key, v) else kv

/-- Exceptions the embedded code can raise. -/
inductive PyError where
  /-- Python `ValueError(msg)` -/
  | valueError (msg : String)
  /-- attribute access on a value that lacks the attribute -/
  | attributeError
  /-- plain `Exception(msg)` -/
  | exc (msg : String)
  /-- pydantic `ValidationError` -/
  | validationError (msg : String)
deriving Repr, DecidableEq

/-! Section: `app/services/product.py` -/

/-- From `app/schemas/product.py` — `ProductCreate` (validators in
`ProductCreate.Valid`). -/
structure ProductCreate where
  name : String
  description : Option String
  price : ℚ
  stock : ℤ
  category : Option String
  tags : Option (List String)
deriving Repr, DecidableEq

/-- Boundary validation of `ProductCreate`: `price` gt 0, `stock` ge 0. -/
def ProductCreate.Valid (pc : ProductCreate) : Prop :=
  0 < pc.price ∧ 0 ≤ pc.stock

instance (pc : ProductCreate) : Decidable pc.Valid := by
  unfold ProductCreate.Valid; infer_instance

/-- From `app/schemas/product.py` — `ProductUpdate`, all fields optional. -/
structure ProductUpdate where
  name : Option String
  description : Option String
  price : Option ℚ
  stock : Option ℤ
  category : Option String
  tags : Option (List String)
deriving Repr, DecidableEq

/-- Boundary validation of `ProductUpdate`: `price` gt 0 and `stock` ge 0
when present. -/
def ProductUpdate.Valid (u : ProductUpdate) : Prop :=
  (∀ q, u.price = some q → 0 < q) ∧ (∀ s, u.stock = some s → 0 ≤ s)

instance (u : ProductUpdate) : Decidable u.Valid := by
  unfold ProductUpdate.Valid
  exact instDecidableAnd

/-- The Python value passed as the `product_data` parameter of
`update_product`.  The routers pass a `ProductUpdate` schema; the call
sites in `app/services/order.py` pass a plain `int` (`±item.quantity`). -/
inductive ProductDataArg where
  | schema (u : ProductUpdate)
  | pyint (n : ℤ)
deriving Repr, DecidableEq

/-- Embeds `create_product`: insert a new product document under a fresh id
(the store-assigned id is made explicit as an argument here; `DB`-level
freshness is a side condition where needed). -/
def create_product (db : DB) (new_id : ProductId) (pc : ProductCreate) :
    DB × Except PyError Product :=
  let product : Product :=
    { name := pc.name, description := pc.description, price := pc.price,
      stock := pc.stock, category := pc.category,
      tags := pc.tags.getD [], is_active := true }
  ({ db with products := db.products ++ [(new_id, product)] }, .ok product)

/-- Embeds `get_product`: `Product.get(product_id)`, raising
`Exception("Product not found")` when absent. -/
def get_product (db : DB) (product_id : ProductId) : Except PyError Product :=
  match findDoc db.products product_id with
  | none => .error (.exc "Product not found")
  | some product => .ok product

/-- Embeds `update_product(product_id, product_data)`.  The body reads
`product_data.name`, `.description`, `.price`, `.stock`, `.category`,
`.tags` in turn and overwrites the fields that are not `None`, then saves.
When the caller passed an `int` (the `order.py` call sites), the very
first attribute access `product_data.name` raises `AttributeError` —
before any mutation, so the store is untouched. -/
def update_product (db : DB) (product_id : ProductId)
    (product_data : ProductDataArg) : DB × Except PyError Product :=
  match findDoc db.products product_id with
  | none => (db, .error (.exc "Product not found"))
  | some product =>
    match product_data with
    | .pyint _ => (db, .error .attributeError)
    | .schema u =>
      let product : Product :=
        { name := u.name.getD product.name,
          description := match u.description with
            | some d => some d
            | none => product.description,
          price := u.price.getD product.price,
          stock := u.stock.getD product.stock,
          category := match u.category with
            | some c => some c
            | none => product.category,
          tags := u.tags.getD product.tags,
          is_active := product.is_active }
      ({ db with products := saveDoc db.products product_id product },
       .ok product)

/-- Embeds `update_product_stock(product_id, quantity_delta)`: add the delta to
the in-memory copy, raise `ValueError("Insufficient stock")` if the result
is negative (without saving — the stored document keeps its old stock),
otherwise save. -/
def update_product_stock (db : DB) (product_id : ProductId)
    (quantity_delta : ℤ) : DB × Except PyError Product :=
  match findDoc db.products product_id with
  | none => (db, .error (.exc "Product not found"))
  | some product =>
    let product : Product := { product with stock := product.stock + quantity_delta }
    if product.stock < 0 then
      (db, .error (.valueError "Insufficient stock"))
    else
      ({ db with products := saveDoc db.products product_id product },
       .ok product)

/-- Embeds `delete_product`: remove the document (the dangling
`ProductResponse.from_orm` on the deleted in-memory object is irrelevant
to state). -/
def delete_product (db : DB) (product_id : ProductId) :
    DB × Except PyError Unit :=
  match findDoc db.products product_id with
  | none => (db, .error (.exc "Product not found"))
  | some _ =>
    ({ db with products := db.products.filter fun kv => kv.1 ≠ product_id },
     .ok ())

/-! Section: `app/services/cart.py` -/

/-- From `app/schemas/cart.py` — `CartItemAdd` (`quantity` gt 0, checked at the
boundary). -/
structure CartItemAdd where
  product_id : ProductId
  quantity : ℤ
deriving Repr, DecidableEq

/-- From `app/schemas/cart.py` — `CartItemUpdate` (`quantity` gt 0). -/
structure CartItemUpdate where
  product_id : ProductId
  quantity : ℤ
deriving Repr, DecidableEq

/-- From `app/schemas/cart.py` — `CartResponse` (`CartItemResponse` carries the
same three fields as `CartItem`). -/
structure CartResponse where
  items : List CartItem
  total_price : ℚ
deriving Repr, DecidableEq

/-- Embeds `sum(item.price * item.quantity for item in cart.items)`. -/
def cart_total (items : List CartItem) : ℚ :=
  (items.map fun item => item.price * (item.quantity : ℚ)).sum

/-- Embeds `cart.save()`: replace the user's cart document, or insert it when the
cart was created fresh in this call. -/
def saveCart (db : DB) (user_id : UserId) (cart : Cart) : DB :=
  match findDoc db.carts user_id with
  | some _ => { db with carts := saveDoc db.carts user_id cart }
  | none => { db with carts := db.carts ++ [(user_id, cart)] }

/-- Embeds `get_cart(user_id)`: empty response when the user has no cart
document. -/
def get_cart (db : DB) (user_id : UserId) : CartResponse :=
  match findDoc db.carts user_id with
  | none => { items := [], total_price := 0 }
  | some cart => { items := cart.items, total_price := cart_total cart.items }

/-- The merge loop of `add_to_cart`: `for item in cart.items: if
item.product_id == ...: item.quantity += ...; break` — only the first
matching line is bumped. -/
def bumpFirst (items : List CartItem) (product_id : ProductId) (qty : ℤ) :
    List CartItem :=
  match items with
  | [] => []
  | item :: rest =>
    if item.product_id = product_id then
      { item with quantity := item.quantity + qty } :: rest
    else
      item :: bumpFirst rest product_id qty

/-- Embeds `add_to_cart(user_id, item_data)`.  Fetches cart and product, creates
the cart if missing, checks `product.stock < item_data.quantity`, merges
into an existing line for the product or appends a **raw dict**, saves,
then computes the response total.  In the append case the freshly inserted
entry is a `dict`, so `item.price` in the total loop raises
`AttributeError` — after the save, so the new line is persisted anyway. -/
def add_to_cart (db : DB) (user_id : UserId) (item_data : CartItemAdd) :
    DB × Except PyError CartResponse :=
  let cart_found := findDoc db.carts user_id
  match get_product db item_data.product_id with
  | .error e => (db, .error e)
  | .ok product =>
    let cart : Cart := cart_found.getD { user_id := user_id, items := [] }
    if product.stock < item_data.quantity then
      (db, .error (.valueError "Insufficient stock for the product"))
    else
      if cart.items.any fun item => item.product_id = item_data.product_id then
        let items := bumpFirst cart.items item_data.product_id item_data.quantity
        let db := saveCart db user_id { cart with items := items }
        (db, .ok { items := items, total_price := cart_total items })
      else
        let items := cart.items ++
          [{ product_id := item_data.product_id,
             quantity := item_data.quantity, price := product.price }]
        let db := saveCart db user_id { cart with items := items }
        (db, .error .attributeError)

/-- The update loop of `update_cart_item`: set the quantity of the first
matching line; `ValueError("Item not found in cart")` when none matches. -/
def setFirst (items : List CartItem) (product_id : ProductId) (qty : ℤ) :
    Option (List CartItem) :=
  match items with
  | [] => none
  | item :: rest =>
    if item.product_id = product_id then
      some ({ item with quantity := qty } :: rest)
    else
      (setFirst rest product_id qty).map fun r => item :: r

/-- Embeds `update_cart_item(user_id, item_data)`. -/
def update_cart_item (db : DB) (user_id : UserId)
    (item_data : CartItemUpdate) : DB × Except PyError CartResponse :=
  match findDoc db.carts user_id with
  | none => (db, .error (.valueError "Cart not found"))
  | some cart =>
    match setFirst cart.items item_data.product_id item_data.quantity with
    | none => (db, .error (.valueError "Item not found in cart"))
    | some items =>
      let db := saveCart db user_id { cart with items := items }
      (db, .ok { items := items, total_price := cart_total items })

/-- Embeds `remove_from_cart(user_id, product_id)`. -/
def remove_from_cart (db : DB) (user_id : UserId) (product_id : ProductId) :
    DB × Except PyError CartResponse :=
  match findDoc db.carts user_id with
  | none => (db, .error (.valueError "Cart not found"))
  | some cart =>
    let items := cart.items.filter fun item => item.product_id ≠ product_id
    let db := saveCart db user_id { cart with items := items }
    (db, .ok { items := items, total_price := cart_total items })

/-- Embeds `clear_cart(user_id)`. -/
def clear_cart (db : DB) (user_id : UserId) :
    DB × Except PyError CartResponse :=
  match findDoc db.carts user_id with
  | none => (db, .error (.valueError "Cart not found"))
  | some cart =>
    let db := saveCart db user_id { cart with items := [] }
    (db, .ok { items := [], total_price := 0 })

/-! Section: `app/services/order.py` -/

/-- From `app/schemas/order.py` — `OrderItemCreate` (`quantity` gt 0 at the
boundary). -/
structure OrderItemCreate where
  product_id : ProductId
  quantity : ℤ
deriving Repr, DecidableEq

/-- From `app/schemas/order.py` — `OrderCreate`. -/
structure OrderCreate where
  items : List OrderItemCreate
  shipping_address : String
deriving Repr, DecidableEq

/-- From `app/schemas/order.py` — `OrderItemResponse`.  The schema declares
`product_id`, `name`, a **required** `description`, and `price` — and no
`quantity`. -/
structure OrderItemResponse where
  product_id : ProductId
  name : String
  description : String
  price : ℚ
deriving Repr, DecidableEq

/-- From `app/schemas/order.py` — `OrderResponse` (timestamps omitted). -/
structure OrderResponse where
  id : OrderId
  user_id : UserId
  items : List OrderItemResponse
  status : OrderStatus
  total : ℚ
  shipping_address : Option String
deriving Repr, DecidableEq

/-- Embeds `build_order_response(order)` constructs one `OrderItemResponse` per
order item, passing `product_id`, `name`, `quantity`, `price`.  `quantity`
is silently ignored (extra field), but the required `description` is
missing, so pydantic raises a validation error as soon as the order has at
least one item; only for an order with empty `items` does the response
build succeed. -/
def build_order_response (order_id : OrderId) (order : Order) :
    Except PyError OrderResponse :=
  match order.items with
  | [] =>
    .ok { id := order_id, user_id := order.user_id, items := [],
          status := order.status, total := order.total,
          shipping_address := order.shipping_address }
  | _ :: _ => .error (.validationError "field required: description")

/-- First requested product id that does not appear in the live cart —
the `for item in order_data.items` membership loop of `create_order`
raises on the first offender. -/
def firstMissing (requested : List OrderItemCreate)
    (cart_items : List CartItem) : Option ProductId :=
  match requested with
  | [] => none
  | item :: rest =>
    if cart_items.any fun c => c.product_id = item.product_id then
      firstMissing rest cart_items
    else
      some item.product_id

/-- The item-building loop of `create_order`: for each requested line,
`get_product` (raising `Exception("Product not found")` when absent), the
`product.stock < item.quantity` check (raising
`ValueError(f"Insufficient stock for {product.name}")`), then the
`OrderItem` snapshot with the catalog's current name and price. -/
def build_order_items (db : DB) :
    List OrderItemCreate → Except PyError (List OrderItem)
  | [] => .ok []
  | item :: rest =>
    match get_product db item.product_id with
    | .error e => .error e
    | .ok product =>
      if product.stock < item.quantity then
        .error (.valueError ("Insufficient stock for " ++ product.name))
      else
        match build_order_items db rest with
        | .error e => .error e
        | .ok items =>
          .ok ({ product_id := item.product_id, name := product.name,
                 quantity := item.quantity, price := product.price } :: items)

/-- Embeds `total += product.price * item.quantity`, accumulated over the built
order items. -/
def order_total (items : List OrderItem) : ℚ :=
  (items.map fun item => item.price * (item.quantity : ℚ)).sum

/-- Embeds `order.save()` on a new `Order`: insert under the store-assigned id. -/
def insertOrder (db : DB) (order : Order) : DB :=
  { db with orders := db.orders ++ [(db.next_order_id, order)],
            next_order_id := db.next_order_id + 1 }

/-- The `# Update stock for each product` loop of `create_order`:
`await update_product(item.product_id, -item.quantity)` — note the `int`
second argument where `update_product` expects a `ProductUpdate`; the call
raises `AttributeError`, aborting the loop. -/
def stock_update_loop : DB → List OrderItem → DB × Except PyError Unit
  | db, [] => (db, .ok ())
  | db, item :: rest =>
    match update_product db item.product_id (.pyint (-item.quantity)) with
    | (db, .error e) => (db, .error e)
    | (db, .ok _) => stock_update_loop db rest

/-- Embeds `create_order(user_id, order_data)`, line for line:
1. `get_cart`; raise `ValueError("Cart is empty")` on an empty items list;
2. raise `ValueError(f"Item {id} not in cart")` for the first requested
   product missing from the cart;
3. build the order items (per-item `get_product` and stock check);
4. construct the `Order` — pydantic validates `total` gt 0, which fails
   when the requested item list is empty — and save it;
5. run the stock-update loop (which raises `AttributeError`, see
   `stock_update_loop`);
6. `clear_cart`; 7. `build_order_response`. -/
def create_order (db : DB) (user_id : UserId) (order_data : OrderCreate) :
    DB × Except PyError OrderResponse :=
  let user_cart := get_cart db user_id
  if user_cart.items.isEmpty then
    (db, .error (.valueError "Cart is empty"))
  else
    match firstMissing order_data.items user_cart.items with
    | some pid =>
      (db, .error (.valueError ("Item " ++ toString pid ++ " not in cart")))
    | none =>
      match build_order_items db order_data.items with
      | .error e => (db, .error e)
      | .ok order_items =>
        let total := order_total order_items
        if total ≤ 0 then
          (db, .error (.validationError "total: ensure this value is greater than 0"))
        else
          let order : Order :=
            { user_id := user_id, items := order_items, total := total,
              status := .pending,
              shipping_address := some order_data.shipping_address }
          let order_id := db.next_order_id
          let db := insertOrder db order
          match stock_update_loop db order_items with
          | (db, .error e) => (db, .error e)
          | (db, .ok _) =>
            match clear_cart db user_id with
            | (db, .error e) => (db, .error e)
            | (db, .ok _) => (db, build_order_response order_id order)

/-- Embeds `update_order_status(order_id, new_status)`: fetch, raise
`ValueError("Order not found")` when absent, assign the new status
**unconditionally**, save, then build the response (which raises for any
order with items — after the save took effect). -/
def update_order_status (db : DB) (order_id : OrderId)
    (new_status : OrderStatus) : DB × Except PyError OrderResponse :=
  match findDoc db.orders order_id with
  | none => (db, .error (.valueError "Order not found"))
  | some order =>
    let order : Order := { order with status := new_status }
    let db := { db with orders := saveDoc db.orders order_id order }
    (db, build_order_response order_id order)

/-- The `# Restore stock for each item` loop of `cancel_order`:
`await update_product(item.product_id, item.quantity)` — again an `int`
in the `ProductUpdate` position, so the first iteration raises
`AttributeError`. -/
def stock_restore_loop : DB → List OrderItem → DB × Except PyError Unit
  | db, [] => (db, .ok ())
  | db, item :: rest =>
    match update_product db item.product_id (.pyint item.quantity) with
    | (db, .error e) => (db, .error e)
    | (db, .ok _) => stock_restore_loop db rest

/-- Embeds `cancel_order(order_id)`: fetch; `ValueError("Order not found")` when
absent; `ValueError(f"Cannot cancel order with status: {status}")` unless
the status is `pending`; then the stock-restore loop, the status
assignment to `cancelled`, the save, and the response build. -/
def cancel_order (db : DB) (order_id : OrderId) :
    DB × Except PyError OrderResponse :=
  match findDoc db.orders order_id with
  | none => (db, .error (.valueError "Order not found"))
  | some order =>
    if order.status ≠ OrderStatus.pending then
      (db, .error (.valueError
        ("Cannot cancel order with status: " ++ order.status.value)))
    else
      match stock_restore_loop db order.items with
      | (db, .error e) => (db, .error e)
      | (db, .ok _) =>
        let order : Order := { order with status := .cancelled }
        let db := { db with orders := saveDoc db.orders order_id order }
        (db, build_order_response order_id order)

/-! Section: `app/routers/order.py` -/

/-- From `app/models/user.py` — the fields of `User` the order router reads. -/
structure User where
  id : UserId
  is_superuser : Bool
deriving Repr, DecidableEq

/-- Embeds `cancel_order_endpoint` (`DELETE /orders/{order_id}`): after
`get_current_user` authentication it calls `cancel_order(order_id)`
directly — the body never reads `current_user`, so no ownership or admin
check takes place (contrast `get_order_endpoint`, which compares
`order.user_id` with `current_user.id`). -/
def cancel_order_endpoint (db : DB) (order_id : OrderId) (_current_user : User) :
    DB × Except PyError OrderResponse :=
  cancel_order db order_id

/-! Section: operation alphabet and invariants.

One constructor per service entry point, used to state the global
invariants (stock non-negativity, cart key uniqueness) over arbitrary
operation sequences. -/

/-- A single service call with its (boundary-validated) arguments. -/
inductive Op where
  | createProduct (new_id : ProductId) (pc : ProductCreate)
  | updateProduct (product_id : ProductId) (u : ProductUpdate)
  | updateProductStock (product_id : ProductId) (delta : ℤ)
  | deleteProduct (product_id : ProductId)
  | addToCart (user_id : UserId) (item : CartItemAdd)
  | updateCartItem (user_id : UserId) (item : CartItemUpdate)
  | removeFromCart (user_id : UserId) (product_id : ProductId)
  | clearCart (user_id : UserId)
  | createOrder (user_id : UserId) (order_data : OrderCreate)
  | updateOrderStatus (order_id : OrderId) (s : OrderStatus)
  | cancelOrder (order_id : OrderId)
deriving Repr, DecidableEq

/-- The pydantic boundary validation each request passes before reaching
the service (only the conditions that concern product fields matter for
the stock invariant; the routers pass `ProductCreate` / `ProductUpdate`
schemas, whose validators are `Valid`). -/
def Op.Valid : Op → Prop
  | .createProduct _ pc => pc.Valid
  | .updateProduct _ u => u.Valid
  | _ => True

instance : (op : Op) → Decidable op.Valid := fun op => by
  cases op <;> unfold Op.Valid <;> infer_instance

/-- The state after one service call (exceptions only matter for the
response; the state component already reflects every `save` that ran). -/
def Op.step : Op → DB → DB
  | .createProduct new_id pc, db => (create_product db new_id pc).1
  | .updateProduct product_id u, db => (update_product db product_id (.schema u)).1
  | .updateProductStock product_id d, db => (update_product_stock db product_id d).1
  | .deleteProduct product_id, db => (delete_product db product_id).1
  | .addToCart user_id item, db => (add_to_cart db user_id item).1
  | .updateCartItem user_id item, db => (update_cart_item db user_id item).1
  | .removeFromCart user_id product_id, db => (remove_from_cart db user_id product_id).1
  | .clearCart user_id, db => (clear_cart db user_id).1
  | .createOrder user_id order_data, db => (create_order db user_id order_data).1
  | .updateOrderStatus order_id s, db => (update_order_status db order_id s).1
  | .cancelOrder order_id, db => (cancel_order db order_id).1

/-- Run a sequence of service calls. -/
def runOps : DB → List Op → DB
  | db, [] => db
  | db, op :: rest => runOps (op.step db) rest

/-- Invariant I3: every stored product has non-negative stock. -/
def stocksNonneg (db : DB) : Prop :=
  ∀ kv ∈ db.products, 0 ≤ kv.2.stock

instance (db : DB) : Decidable (stocksNonneg db) := by
  unfold stocksNonneg; infer_instance

/-- Invariant I5: every stored cart has at most one line per product id. -/
def cartKeysNodup (db : DB) : Prop :=
  ∀ kv ∈ db.carts, (kv.2.items.map CartItem.product_id).Nodup

instance (db : DB) : Decidable (cartKeysNodup db) := by
  unfold cartKeysNodup; infer_instance

/-! Section: concrete states used by counterexamples and witnesses.

These mirror the spec's own scenario "cart \x7bproductX: qty 2 @ $10\x7d,
stock(X)=100" and the repository's test fixtures (orders inserted directly
into the store, as `tests/test_orders.py` does). -/

/-- Product X: price 10, stock 100. -/
def sampleProduct : Product :=
  { name := "X", description := none, price := 10, stock := 100,
    category := none, tags := [], is_active := true }

/-- Store with product X (id 1) and user 7's cart holding two units of X
at the snapshot price 10. -/
def sampleDB : DB :=
  { products := [(1, sampleProduct)],
    carts := [(7, { user_id := 7,
                    items := [{ product_id := 1, quantity := 2, price := 10 }] })],
    orders := [],
    next_order_id := 0 }

/-- The checkout request for two units of product X. -/
def sampleOrderReq : OrderCreate :=
  { items := [{ product_id := 1, quantity := 2 }],
    shipping_address := "addr" }

/-- The order document `create_order` persists for `sampleDB` /
`sampleOrderReq`. -/
def sampleOrder : Order :=
  { user_id := 7,
    items := [{ product_id := 1, name := "X", quantity := 2, price := 10 }],
    total := 20, status := .pending, shipping_address := some "addr" }

/-- Store holding one delivered order (id 5, owner 7) with no line items —
directly inserted, as the repository's tests insert orders. -/
def dbDelivered : DB :=
  { products := [(1, sampleProduct)], carts := [],
    orders := [(5, { user_id := 7, items := [], total := 50,
                     status := .delivered, shipping_address := none })],
    next_order_id := 6 }

/-- Store holding one pending order (id 5) owned by user 1, with no line
items. -/
def dbPendingOrder : DB :=
  { products := [], carts := [],
    orders := [(5, { user_id := 1, items := [], total := 50,
                     status := .pending, shipping_address := none })],
    next_order_id := 6 }

/-- Store holding one confirmed order (id 3, owner 7). -/
def dbConfirmedOrder : DB :=
  { products := [(1, sampleProduct)], carts := [],
    orders := [(3, { user_id := 7,
                     items := [{ product_id := 1, name := "X", quantity := 2,
                                 price := 10 }],
                     total := 20, status := .confirmed,
                     shipping_address := some "addr" })],
    next_order_id := 4 }

/-- Store with product X only (no carts, no orders). -/
def dbProductsOnly : DB :=
  { products := [(1, sampleProduct)], carts := [], orders := [],
    next_order_id := 0 }

/-- An operation sequence touching every kind of state, used to witness
the stock invariant. -/
def sampleOps : List Op :=
  [ .createProduct 2 { name := "Y", description := none, price := 5,
                       stock := 3, category := none, tags := none },
    .addToCart 7 { product_id := 1, quantity := 1 },
    .updateProductStock 1 (-40),
    .updateProductStock 1 (-100),
    .updateProduct 1 { name := none, description := none, price := none,
                       stock := some 0, category := none, tags := none },
    .createOrder 7 sampleOrderReq,
    .cancelOrder 0,
    .updateOrderStatus 0 .cancelled,
    .deleteProduct 2,
    .clearCart 7 ]

/-! Section: helper lemmas. -/

theorem findDoc_saveDoc {α : Type} (l : List (Nat × α)) (k key : Nat) (v : α) :
    findDoc (saveDoc l k v) key =
      if k = key then (findDoc l key).map fun _ => v else findDoc l key := by
  induction l with
  | nil => by_cases h : k = key <;> simp [saveDoc, findDoc, h]
  | cons kv rest ih =>
    obtain ⟨k₀, v₀⟩ := kv
    simp only [saveDoc, List.map_cons] at ih ⊢
    by_cases hk : k₀ = k
    · rw [if_pos hk]
      simp only [findDoc]
      by_cases hkey : k = key
      · rw [if_pos hkey, if_pos hkey]
        subst hkey
        simp [findDoc, hk]
      · rw [if_neg hkey, if_neg hkey]
        have hne : ¬(k₀ = key) := fun h => hkey (hk.symm.trans h)
        rw [ih, if_neg hkey]
        simp [findDoc, hne]
    · rw [if_neg hk]
      simp only [findDoc]
      by_cases hkey : k₀ = key
      · rw [if_pos hkey]
        have hkk : ¬(k = key) := fun h => hk (hkey.trans h.symm)
        rw [if_neg hkk]
        simp [findDoc, hkey]
      · rw [if_neg hkey, ih]
        by_cases h2 : k = key
        · rw [if_pos h2, if_pos h2]
          simp [findDoc, hkey]
        · rw [if_neg h2, if_neg h2]
          simp [findDoc, hkey]

theorem findDoc_append {α : Type} (l₁ l₂ : List (Nat × α)) (key : Nat) :
    findDoc (l₁ ++ l₂) key =
      match findDoc l₁ key with
      | some v => some v
      | none => findDoc l₂ key := by
  induction l₁ with
  | nil => simp [findDoc]
  | cons kv rest ih =>
    by_cases h : kv.1 = key
    · simp [findDoc, h]
    · simp only [List.cons_append, findDoc, if_neg h]
      exact ih

theorem mem_saveDoc {α : Type} {l : List (Nat × α)} {k : Nat} {v : α}
    {kv : Nat × α} (h : kv ∈ saveDoc l k v) : kv ∈ l ∨ kv = (k, v) := by
  unfold saveDoc at h
  obtain ⟨kv', hmem, heq⟩ := List.mem_map.mp h
  by_cases hk : kv'.1 = k
  · right; rw [if_pos hk] at heq; exact heq.symm
  · left; rw [if_neg hk] at heq; exact heq ▸ hmem

/-- Embeds `update_product` called with an `int` in the `ProductUpdate` position
(the `order.py` call sites) always raises and never mutates the store. -/
theorem update_product_pyint (db : DB) (product_id : ProductId) (n : ℤ) :
    ∃ e, update_product db product_id (.pyint n) = (db, .error e) := by
  unfold update_product
  cases findDoc db.products product_id <;> exact ⟨_, rfl⟩

/-- The checkout stock-update loop never changes the state, and raises as
soon as the order has at least one item. -/
theorem stock_update_loop_spec (db : DB) (items : List OrderItem) :
    (stock_update_loop db items).1 = db ∧
      (items ≠ [] → ∃ e, (stock_update_loop db items).2 = .error e) := by
  cases items with
  | nil => simp [stock_update_loop]
  | cons item rest =>
    obtain ⟨e, he⟩ := update_product_pyint db item.product_id (-item.quantity)
    simp [stock_update_loop, he]

/-- The cancellation stock-restore loop never changes the state, and
raises as soon as the order has at least one item. -/
theorem stock_restore_loop_spec (db : DB) (items : List OrderItem) :
    (stock_restore_loop db items).1 = db ∧
      (items ≠ [] → ∃ e, (stock_restore_loop db items).2 = .error e) := by
  cases items with
  | nil => simp [stock_restore_loop]
  | cons item rest =>
    obtain ⟨e, he⟩ := update_product_pyint db item.product_id item.quantity
    simp [stock_restore_loop, he]

/-- The helper `saveCart` touches only the carts collection. -/
theorem saveCart_frame (db : DB) (user_id : UserId) (cart : Cart) :
    (saveCart db user_id cart).products = db.products ∧
      (saveCart db user_id cart).orders = db.orders := by
  unfold saveCart
  cases findDoc db.carts user_id <;> exact ⟨rfl, rfl⟩

/-- The service `clear_cart` touches only the carts collection. -/
theorem clear_cart_frame (db : DB) (user_id : UserId) :
    ((clear_cart db user_id).1.products = db.products) ∧
      ((clear_cart db user_id).1.orders = db.orders) := by
  unfold clear_cart
  cases h : findDoc db.carts user_id
  · exact ⟨rfl, rfl⟩
  · simpa using saveCart_frame db user_id _

/-- An empty list of order items has total 0; a positive total therefore
forces at least one item. -/
theorem order_total_pos_ne_nil {items : List OrderItem}
    (h : 0 < order_total items) : items ≠ [] := by
  intro hnil
  rw [hnil] at h
  simp [order_total] at h

/-- The service `create_order` (with the store's actual `update_product` call) never
changes the products or carts collections: every path either aborts before
any save or aborts inside the stock-update loop right after persisting the
order. -/
theorem create_order_products_carts_frame (db : DB) (user_id : UserId)
    (order_data : OrderCreate) :
    ((create_order db user_id order_data).1.products = db.products) ∧
      ((create_order db user_id order_data).1.carts = db.carts) := by
  unfold create_order
  by_cases h1 : (get_cart db user_id).items.isEmpty
  · simp [h1]
  · simp only [h1, Bool.false_eq_true, if_false]
    cases h2 : firstMissing order_data.items (get_cart db user_id).items
    · simp only []
      cases h3 : build_order_items db order_data.items with
      | error e => simp
      | ok order_items =>
        simp only []
        by_cases h4 : order_total order_items ≤ 0
        · simp [h4]
        · simp only [h4, if_false]
          have hne : order_items ≠ [] :=
            order_total_pos_ne_nil (lt_of_not_le h4)
          obtain ⟨hfst, hsnd⟩ :=
            stock_update_loop_spec (insertOrder db _) order_items
          obtain ⟨e, he⟩ := hsnd hne
          rcases hloop : stock_update_loop (insertOrder db _) order_items with
            ⟨db', r⟩
          rw [hloop] at hfst hsnd he
          cases r with
          | error e' => simp_all [insertOrder]
          | ok u => simp_all
    · simp

/-- The status-update service touches only the orders collection. -/
theorem update_order_status_frame (db : DB) (order_id : OrderId)
    (s : OrderStatus) :
    ((update_order_status db order_id s).1.products = db.products) ∧
      ((update_order_status db order_id s).1.carts = db.carts) := by
  unfold update_order_status
  cases findDoc db.orders order_id <;> exact ⟨rfl, rfl⟩

/-- The cancellation service touches only the orders collection (its
stock-restore loop always aborts without saving). -/
theorem cancel_order_frame (db : DB) (order_id : OrderId) :
    ((cancel_order db order_id).1.products = db.products) ∧
      ((cancel_order db order_id).1.carts = db.carts) := by
  unfold cancel_order
  cases h : findDoc db.orders order_id with
  | none => exact ⟨rfl, rfl⟩
  | some order =>
    simp only []
    by_cases hs : order.status ≠ OrderStatus.pending
    · simp [hs]
    · simp only [hs, if_false]
      obtain ⟨hfst, hsnd⟩ := stock_restore_loop_spec db order.items
      rcases hloop : stock_restore_loop db order.items with ⟨db', r⟩
      rw [hloop] at hfst hsnd
      cases r with
      | error e => simp_all
      | ok u => simp_all

/-- The lookup `findDoc` returns an entry of the list. -/
theorem findDoc_mem {α : Type} {l : List (Nat × α)} {key : Nat} {v : α}
    (h : findDoc l key = some v) : (key, v) ∈ l := by
  induction l with
  | nil => simp [findDoc] at h
  | cons kv rest ih =>
    obtain ⟨k₀, v₀⟩ := kv
    by_cases hk : k₀ = key
    · rw [findDoc, if_pos hk] at h
      injection h with h2
      subst hk
      subst h2
      exact List.mem_cons_self _ _
    · rw [findDoc, if_neg hk] at h
      exact List.mem_cons_of_mem _ (ih h)

/-- The state `update_order_status` leaves behind when the order exists:
the same store with the order's status overwritten. -/
theorem update_order_status_save (db : DB) (order_id : OrderId)
    (order : Order) (new_status : OrderStatus)
    (h : findDoc db.orders order_id = some order) :
    (update_order_status db order_id new_status).1 =
      { db with orders := saveDoc db.orders order_id
                  { order with status := new_status } } := by
  unfold update_order_status
  rw [h]

/-- C1: the spec scenario — cart of user 7 holds two units of product X
(price 10, stock 100) and user 7 checks out those two units.  The claim
says checkout returns a pending order with total 20, decrements X's stock
to 98 and empties the cart.  The code instead persists the order and then
crashes with `AttributeError` (`update_product` is called with the integer
`-quantity` in the `ProductUpdate` position): stock stays 100, the cart
keeps its line, and no order response is returned. -/
theorem c1_checkout_scenario_bug :
    (create_order sampleDB 7 sampleOrderReq).2 = .error .attributeError ∧
    findDoc (create_order sampleDB 7 sampleOrderReq).1.products 1 =
      some sampleProduct ∧
    (create_order sampleDB 7 sampleOrderReq).1.carts = sampleDB.carts ∧
    findDoc (create_order sampleDB 7 sampleOrderReq).1.orders 0 =
      some sampleOrder ∧
    sampleProduct.stock = 100 ∧ sampleDB.carts ≠ [] := by
  refine ⟨?_, ?_, ?_, ?_, rfl, by decide⟩ <;>
    norm_num [create_order, get_cart, findDoc, firstMissing, build_order_items,
      get_product, order_total, insertOrder, stock_update_loop, update_product,
      clear_cart, saveCart, saveDoc, cart_total, sampleDB, sampleOrderReq,
      sampleProduct, sampleOrder]

/-- C4 counterexample: order 5 of `dbDelivered` is in the terminal status
`delivered`, yet `update_order_status` happily moves it back to `pending`
— and even returns a success response.  This refutes the claim that no
transition out of a terminal state is possible. -/
theorem c4_counterexample :
    findDoc (update_order_status dbDelivered 5 .pending).1.orders 5 =
      some { user_id := 7, items := [], total := 50, status := .pending,
             shipping_address := none } ∧
    (update_order_status dbDelivered 5 .pending).2 =
      .ok { id := 5, user_id := 7, items := [], status := .pending,
            total := 50, shipping_address := none } :=
  ⟨rfl, rfl⟩

/-- C4 (amended): `update_order_status` performs no terminal-state (or
any other state-machine) check — for every stored order, whatever its
current status, it saves the requested new status unconditionally. -/
theorem c4_update_order_status_unconditional (db : DB) (order_id : OrderId)
    (order : Order) (new_status : OrderStatus)
    (h : findDoc db.orders order_id = some order) :
    findDoc (update_order_status db order_id new_status).1.orders order_id =
      some { order with status := new_status } := by
  rw [update_order_status_save db order_id order new_status h]
  simp only []
  rw [findDoc_saveDoc, if_pos rfl, h]
  rfl

/-- C4 witness: the delivered order 5 is moved to `confirmed`. -/
theorem c4_witness :
    findDoc (update_order_status dbDelivered 5 .confirmed).1.orders 5 =
      some { user_id := 7, items := [], total := 50, status := .confirmed,
             shipping_address := none } :=
  c4_update_order_status_unconditional dbDelivered 5
    { user_id := 7, items := [], total := 50, status := .delivered,
      shipping_address := none } .confirmed rfl

/-- C5: `cancel_order` on an order whose status is not `pending` fails
with a `ValueError` naming the current status and leaves the whole store
unchanged (the returned state is the input state, so no order, cart or
product is modified); and whenever `cancel_order` succeeds the order's
status was `pending`. -/
theorem c5_cancel_only_pending (db : DB) (order_id : OrderId) :
    (∀ order, findDoc db.orders order_id = some order →
      order.status ≠ .pending →
      cancel_order db order_id =
        (db, .error (.valueError
          ("Cannot cancel order with status: " ++ order.status.value)))) ∧
    (∀ db' resp, cancel_order db order_id = (db', .ok resp) →
      ∃ order, findDoc db.orders order_id = some order ∧
        order.status = .pending) := by
  constructor
  · intro order h hs
    unfold cancel_order
    rw [h]
    simp only [if_pos hs]
  · intro db' resp h
    unfold cancel_order at h
    split at h
    next heq => simp at h
    next order heq =>
      by_cases hs : order.status ≠ OrderStatus.pending
      · rw [if_pos hs] at h; simp at h
      · exact ⟨order, heq, not_not.mp hs⟩

/-- C5 witness: cancelling the confirmed order 3 fails, names the status,
and changes nothing. -/
theorem c5_witness :
    cancel_order dbConfirmedOrder 3 =
      (dbConfirmedOrder,
       .error (.valueError "Cannot cancel order with status: confirmed")) := by
  have h := (c5_cancel_only_pending dbConfirmedOrder 3).1
    { user_id := 7,
      items := [{ product_id := 1, name := "X", quantity := 2, price := 10 }],
      total := 20, status := .confirmed, shipping_address := some "addr" }
    rfl (by decide)
  exact h

/-- C7 counterexample: order 5 of `dbPendingOrder` is owned by user 1 and
pending; user 2 — neither the owner nor an admin — calls the cancel
endpoint and the cancellation **succeeds**, flipping the order to
`cancelled`.  This refutes the claim that a cancellation attempt by any
other authenticated user fails without changing the order. -/
theorem c7_counterexample :
    (cancel_order_endpoint dbPendingOrder 5 { id := 2, is_superuser := false }).2 =
      .ok { id := 5, user_id := 1, items := [], status := .cancelled,
            total := 50, shipping_address := none } ∧
    findDoc (cancel_order_endpoint dbPendingOrder 5
        { id := 2, is_superuser := false }).1.orders 5 =
      some { user_id := 1, items := [], total := 50, status := .cancelled,
             shipping_address := none } :=
  ⟨rfl, rfl⟩

/-- C7 (amended): the cancel endpoint enforces no ownership or admin
check — the caller's identity never influences the outcome, and any
authenticated user's cancellation of a pending order proceeds exactly as
the owner's would (shown here on orders whose stock-restore loop does not
crash, i.e. with no line items). -/
theorem c7_cancel_endpoint_no_authorization (db : DB) (order_id : OrderId) :
    (∀ u₁ u₂ : User, cancel_order_endpoint db order_id u₁ =
      cancel_order_endpoint db order_id u₂) ∧
    (∀ (u : User) (order : Order), findDoc db.orders order_id = some order →
      order.status = .pending → order.items = [] →
      (cancel_order_endpoint db order_id u).2 =
        .ok { id := order_id, user_id := order.user_id, items := [],
              status := .cancelled, total := order.total,
              shipping_address := order.shipping_address } ∧
      findDoc (cancel_order_endpoint db order_id u).1.orders order_id =
        some { order with status := .cancelled }) := by
  constructor
  · intro u₁ u₂; rfl
  · intro u order h hstatus hitems
    unfold cancel_order_endpoint cancel_order
    rw [h]
    have hs : ¬(order.status ≠ OrderStatus.pending) := by
      rw [hstatus]; exact not_not_intro rfl
    simp only [if_neg hs, hitems, stock_restore_loop, build_order_response]
    constructor
    · trivial
    · rw [findDoc_saveDoc, if_pos rfl, h]
      simp [hitems]

/-- C7 witness: user 9 (not the owner, not an admin) cancels order 5 of
`dbPendingOrder`. -/
theorem c7_witness :
    (cancel_order_endpoint dbPendingOrder 5 { id := 9, is_superuser := false }).2 =
      .ok { id := 5, user_id := 1, items := [], status := .cancelled,
            total := 50, shipping_address := none } ∧
    findDoc (cancel_order_endpoint dbPendingOrder 5
        { id := 9, is_superuser := false }).1.orders 5 =
      some { user_id := 1, items := [], total := 50, status := .cancelled,
             shipping_address := none } :=
  (c7_cancel_endpoint_no_authorization dbPendingOrder 5).2
    { id := 9, is_superuser := false }
    { user_id := 1, items := [], total := 50, status := .pending,
      shipping_address := none }
    rfl rfl rfl

/-- C10: `update_order_status` changes only the targeted order's status
field: the products collection (hence every stock count) and the carts
collection are untouched, every other order is untouched, and the
targeted order keeps its owner, line items, total and shipping address —
in particular, setting the status to `cancelled` through this operation
restores no stock. -/
theorem c10_update_order_status_only_status (db : DB) (order_id : OrderId)
    (new_status : OrderStatus) :
    ((update_order_status db order_id new_status).1.products = db.products) ∧
    ((update_order_status db order_id new_status).1.carts = db.carts) ∧
    (∀ other, other ≠ order_id →
      findDoc (update_order_status db order_id new_status).1.orders other =
        findDoc db.orders other) ∧
    (∀ order, findDoc db.orders order_id = some order →
      findDoc (update_order_status db order_id new_status).1.orders order_id =
        some { user_id := order.user_id, items := order.items,
               total := order.total, status := new_status,
               shipping_address := order.shipping_address }) := by
  obtain ⟨h1, h2⟩ := update_order_status_frame db order_id new_status
  refine ⟨h1, h2, ?_, ?_⟩
  · intro other hne
    unfold update_order_status
    cases h : findDoc db.orders order_id with
    | none => rfl
    | some order =>
      simp only []
      rw [findDoc_saveDoc, if_neg (fun hh => hne hh.symm)]
  · intro order h
    rw [update_order_status_save db order_id order new_status h]
    simp only []
    rw [findDoc_saveDoc, if_pos rfl, h]
    rfl

/-- C10 witness: setting order 5 of `dbDelivered` to `cancelled` leaves
products, carts and the unrelated order slot 9 unchanged and only flips
the status. -/
theorem c10_witness :
    (update_order_status dbDelivered 5 .cancelled).1.products =
      dbDelivered.products ∧
    (update_order_status dbDelivered 5 .cancelled).1.carts =
      dbDelivered.carts ∧
    findDoc (update_order_status dbDelivered 5 .cancelled).1.orders 9 =
      findDoc dbDelivered.orders 9 ∧
    findDoc (update_order_status dbDelivered 5 .cancelled).1.orders 5 =
      some { user_id := 7, items := [], total := 50, status := .cancelled,
             shipping_address := none } := by
  obtain ⟨h1, h2, h3, h4⟩ :=
    c10_update_order_status_only_status dbDelivered 5 .cancelled
  exact ⟨h1, h2, h3 9 (by decide), h4 _ rfl⟩

/-- Embeds `get_product` succeeds exactly on stored products. -/
theorem get_product_ok {db : DB} {product_id : ProductId} {p : Product} :
    get_product db product_id = .ok p ↔
      findDoc db.products product_id = some p := by
  unfold get_product
  cases h : findDoc db.products product_id <;> simp

/-- Every item snapshotted by a successful `build_order_items` run refers
to a stored product. -/
theorem build_order_items_mem_isSome {db : DB} :
    ∀ {items : List OrderItemCreate} {order_items : List OrderItem},
      build_order_items db items = .ok order_items →
      ∀ oi ∈ order_items, (findDoc db.products oi.product_id).isSome := by
  intro items
  induction items with
  | nil =>
    intro order_items h oi hmem
    unfold build_order_items at h
    injection h with h'
    rw [← h'] at hmem
    simp at hmem
  | cons item rest ih =>
    intro order_items h oi hmem
    unfold build_order_items at h
    split at h
    next e heq => simp at h
    next product heq =>
      by_cases hlt : product.stock < item.quantity
      · rw [if_pos hlt] at h; simp at h
      · rw [if_neg hlt] at h
        split at h
        next e heq2 => simp at h
        next items' heq2 =>
          injection h with h'
          rw [← h'] at hmem
          rcases List.mem_cons.mp hmem with rfl | hmem'
          · have hfd := get_product_ok.mp heq
            simp [hfd]
          · exact ih heq2 oi hmem'

/-- When every product referenced by the loop exists, the checkout
stock-update loop fails with precisely `AttributeError` (from
`product_data.name` on the integer argument) on its first iteration. -/
theorem stock_update_loop_attr (db : DB) (items : List OrderItem)
    (hne : items ≠ [])
    (hex : ∀ oi ∈ items, (findDoc db.products oi.product_id).isSome) :
    stock_update_loop db items = (db, .error .attributeError) := by
  cases items with
  | nil => exact absurd rfl hne
  | cons item rest =>
    have h1 := hex item (List.mem_cons_self _ _)
    rcases hp : findDoc db.products item.product_id with _ | p
    · rw [hp] at h1; simp at h1
    · simp [stock_update_loop, update_product, hp]

/-- When all requested products exist and some requested quantity exceeds
its product's stock, the item-building loop fails with an
insufficient-stock `ValueError` naming an actually offending product. -/
theorem build_order_items_insufficient (db : DB) :
    ∀ items : List OrderItemCreate,
      (∀ it ∈ items, (findDoc db.products it.product_id).isSome) →
      (∃ it ∈ items, ∃ p, findDoc db.products it.product_id = some p ∧
        p.stock < it.quantity) →
      ∃ p, build_order_items db items =
          .error (.valueError ("Insufficient stock for " ++ p.name)) ∧
        ∃ it ∈ items, findDoc db.products it.product_id = some p ∧
          p.stock < it.quantity := by
  intro items
  induction items with
  | nil =>
    intro _ hex
    simp at hex
  | cons item rest ih =>
    intro hall hex
    have h1 := hall item (List.mem_cons_self _ _)
    rcases hp : findDoc db.products item.product_id with _ | p
    · rw [hp] at h1; simp at h1
    · by_cases hlt : p.stock < item.quantity
      · refine ⟨p, ?_, item, List.mem_cons_self _ _, hp, hlt⟩
        simp [build_order_items, get_product, hp, hlt]
      · have hex' : ∃ it ∈ rest, ∃ q, findDoc db.products it.product_id = some q ∧
            q.stock < it.quantity := by
          obtain ⟨it, hmem, q, hq, hqlt⟩ := hex
          rcases List.mem_cons.mp hmem with rfl | hmem'
          · rw [hp] at hq
            injection hq with hq'
            exact absurd (hq' ▸ hqlt) hlt
          · exact ⟨it, hmem', q, hq, hqlt⟩
        obtain ⟨q, hbuild, it, hmem, hq, hqlt⟩ :=
          ih (fun it hit => hall it (List.mem_cons_of_mem _ hit)) hex'
        refine ⟨q, ?_, it, List.mem_cons_of_mem _ hmem, hq, hqlt⟩
        simp [build_order_items, get_product, hp, if_neg hlt, hbuild]

/-- C2: each of the three checkout validation failures raises its
documented `ValueError` and returns the input store unchanged — no order
is created, no stock is touched, the cart keeps its lines.  (1) An empty
(or absent) cart fails with "Cart is empty".  (2) A requested product
missing from the live cart fails with "Item {id} not in cart" naming the
offending id.  (3) When all requested products exist and some requested
quantity exceeds its product's stock, checkout fails with "Insufficient
stock for {name}" naming an offending product. -/
theorem c2_checkout_validation_errors (db : DB) (user_id : UserId)
    (order_data : OrderCreate) :
    ((get_cart db user_id).items = [] →
      create_order db user_id order_data =
        (db, .error (.valueError "Cart is empty"))) ∧
    (∀ pid, (get_cart db user_id).items ≠ [] →
      firstMissing order_data.items (get_cart db user_id).items = some pid →
      create_order db user_id order_data =
        (db, .error (.valueError ("Item " ++ toString pid ++ " not in cart")))) ∧
    ((get_cart db user_id).items ≠ [] →
      firstMissing order_data.items (get_cart db user_id).items = none →
      (∀ it ∈ order_data.items, (findDoc db.products it.product_id).isSome) →
      (∃ it ∈ order_data.items, ∃ p, findDoc db.products it.product_id = some p ∧
        p.stock < it.quantity) →
      ∃ p, create_order db user_id order_data =
          (db, .error (.valueError ("Insufficient stock for " ++ p.name))) ∧
        ∃ it ∈ order_data.items, findDoc db.products it.product_id = some p ∧
          p.stock < it.quantity) := by
  refine ⟨?_, ?_, ?_⟩
  · intro h
    unfold create_order
    simp [h]
  · intro pid hne hmiss
    have hfalse : (get_cart db user_id).items.isEmpty = false := by
      simpa [List.isEmpty_iff] using hne
    unfold create_order
    simp only [hfalse, Bool.false_eq_true, if_false, hmiss]
  · intro hne hmiss hall hex
    obtain ⟨p, hbuild, it, hmem, hp, hlt⟩ :=
      build_order_items_insufficient db order_data.items hall hex
    have hfalse : (get_cart db user_id).items.isEmpty = false := by
      simpa [List.isEmpty_iff] using hne
    refine ⟨p, ?_, it, hmem, hp, hlt⟩
    unfold create_order
    simp only [hfalse, Bool.false_eq_true, if_false, hmiss, hbuild]

/-- C2 witness: the three failures on concrete stores — no cart, a
request for the absent product 9, and a request for 101 units of the
100-unit product X. -/
theorem c2_witness :
    create_order { sampleDB with carts := [] } 7 sampleOrderReq =
      ({ sampleDB with carts := [] }, .error (.valueError "Cart is empty")) ∧
    create_order sampleDB 7
        { items := [{ product_id := 9, quantity := 1 }],
          shipping_address := "addr" } =
      (sampleDB, .error (.valueError "Item 9 not in cart")) ∧
    create_order sampleDB 7
        { items := [{ product_id := 1, quantity := 101 }],
          shipping_address := "addr" } =
      (sampleDB, .error (.valueError "Insufficient stock for X")) := by
  refine ⟨?_, ?_, ?_⟩
  · exact (c2_checkout_validation_errors { sampleDB with carts := [] } 7
      sampleOrderReq).1 rfl
  · exact (c2_checkout_validation_errors sampleDB 7
      { items := [{ product_id := 9, quantity := 1 }],
        shipping_address := "addr" }).2.1 9 (by decide) rfl
  · obtain ⟨p, heq, it, hmem, hp, hlt⟩ :=
      (c2_checkout_validation_errors sampleDB 7
        { items := [{ product_id := 1, quantity := 101 }],
          shipping_address := "addr" }).2.2 (by decide) rfl
        (by intro it hit; fin_cases hit; simp [sampleDB, findDoc, sampleProduct])
        ⟨{ product_id := 1, quantity := 101 }, by simp, sampleProduct,
          rfl, by decide⟩
    fin_cases hmem
    have hps : p = sampleProduct := by
      have : findDoc sampleDB.products 1 = some sampleProduct := rfl
      rw [this] at hp
      injection hp with hp'
      exact hp'.symm
    rw [hps] at heq
    exact heq

/-- C3 counterexample: the state reached by running the spec's own
checkout scenario holds a persisted order (id 0, reserving 2 units of
product 1) while product 1's stock is untouched at 100 — a reachable
state with a persisted order none of whose stock decrements have been
applied. -/
theorem c3_counterexample :
    (create_order sampleDB 7 sampleOrderReq).2 = .error .attributeError ∧
    findDoc (create_order sampleDB 7 sampleOrderReq).1.orders 0 =
      some sampleOrder ∧
    (create_order sampleDB 7 sampleOrderReq).1.products = sampleDB.products ∧
    sampleOrder.items =
      [{ product_id := 1, name := "X", quantity := 2, price := 10 }] ∧
    findDoc sampleDB.products 1 = some sampleProduct ∧
    sampleProduct.stock = 100 := by
  refine ⟨?_, ?_, ?_, ?_, rfl, rfl⟩ <;>
    norm_num [create_order, get_cart, findDoc, firstMissing, build_order_items,
      get_product, order_total, insertOrder, stock_update_loop, update_product,
      clear_cart, saveCart, saveDoc, cart_total, sampleDB, sampleOrderReq,
      sampleProduct, sampleOrder]

/-- C3 (amended): `create_order` persists the order **before** attempting
any stock decrement, and the decrement call itself always raises
(`update_product` receives an `int` in the `ProductUpdate` position), so
every checkout that passes validation ends in a state where the order is
persisted while no stock was decremented and the cart was not cleared. -/
theorem c3_order_persisted_without_decrements (db : DB) (user_id : UserId)
    (order_data : OrderCreate) (order_items : List OrderItem)
    (h1 : (get_cart db user_id).items ≠ [])
    (h2 : firstMissing order_data.items (get_cart db user_id).items = none)
    (h3 : build_order_items db order_data.items = .ok order_items)
    (h4 : 0 < order_total order_items) :
    create_order db user_id order_data =
      ({ db with
           orders := db.orders ++
             [(db.next_order_id,
               { user_id := user_id, items := order_items,
                 total := order_total order_items, status := .pending,
                 shipping_address := some order_data.shipping_address })],
           next_order_id := db.next_order_id + 1 },
       .error .attributeError) := by
  have hfalse : (get_cart db user_id).items.isEmpty = false := by
    simpa [List.isEmpty_iff] using h1
  unfold create_order
  simp only [hfalse, Bool.false_eq_true, if_false, h2, h3,
    if_neg (not_le.mpr h4)]
  have hattr := stock_update_loop_attr
    (insertOrder db
      { user_id := user_id, items := order_items,
        total := order_total order_items, status := .pending,
        shipping_address := some order_data.shipping_address })
    order_items (order_total_pos_ne_nil h4)
    (by
      intro oi hmem
      have := build_order_items_mem_isSome h3 oi hmem
      simpa [insertOrder] using this)
  rw [hattr]
  rfl

/-- C3 witness: the amended statement at the concrete scenario store. -/
theorem c3_witness :
    create_order sampleDB 7 sampleOrderReq =
      ({ sampleDB with orders := [(0, sampleOrder)], next_order_id := 1 },
       .error .attributeError) := by
  have h := c3_order_persisted_without_decrements sampleDB 7 sampleOrderReq
    [{ product_id := 1, name := "X", quantity := 2, price := 10 }]
    (by decide) rfl rfl (by norm_num [order_total])
  rw [h]
  norm_num [sampleDB, sampleOrder, sampleOrderReq, order_total]

/-- C6: in the spec's reversibility scenario (stock 100, checkout of two
units, then cancel of the created order) **both** sides of the round trip
are broken by the same defect: checkout raises `AttributeError` without
decrementing stock, and the subsequent cancel of the (pending, persisted)
order raises `AttributeError` in its restore loop, changing nothing — the
order never becomes `cancelled`.  Stock ends at 100 only because it was
never decremented in the first place. -/
theorem c6_cancel_after_checkout_bug :
    cancel_order (create_order sampleDB 7 sampleOrderReq).1 0 =
      ((create_order sampleDB 7 sampleOrderReq).1, .error .attributeError) ∧
    findDoc (cancel_order (create_order sampleDB 7 sampleOrderReq).1 0).1.orders 0 =
      some sampleOrder ∧
    (cancel_order (create_order sampleDB 7 sampleOrderReq).1 0).1.products =
      sampleDB.products ∧
    sampleOrder.status = .pending := by
  refine ⟨?_, ?_, ?_, rfl⟩ <;>
    norm_num [cancel_order, stock_restore_loop, create_order, get_cart, findDoc,
      firstMissing, build_order_items, get_product, order_total, insertOrder,
      stock_update_loop, update_product, clear_cart, saveCart, saveDoc,
      cart_total, sampleDB, sampleOrderReq, sampleProduct, sampleOrder,
      OrderStatus.value]

/-- Every `add_to_cart` path either aborts before any save or saves a
cart document for the calling user. -/
theorem add_to_cart_state (db : DB) (user_id : UserId)
    (item_data : CartItemAdd) :
    (add_to_cart db user_id item_data).1 = db ∨
      ∃ c, (add_to_cart db user_id item_data).1 = saveCart db user_id c := by
  unfold add_to_cart
  split
  next e heq => left; rfl
  next product heq =>
    dsimp only
    split
    · left; rfl
    · split
      · right; exact ⟨_, rfl⟩
      · right; exact ⟨_, rfl⟩

/-- The service `add_to_cart` touches only the carts collection. -/
theorem add_to_cart_frame (db : DB) (user_id : UserId) (item_data : CartItemAdd) :
    ((add_to_cart db user_id item_data).1.products = db.products) ∧
      ((add_to_cart db user_id item_data).1.orders = db.orders) := by
  rcases add_to_cart_state db user_id item_data with h | ⟨c, h⟩
  · rw [h]; exact ⟨rfl, rfl⟩
  · rw [h]; exact saveCart_frame db user_id c

/-- The service `update_cart_item` touches only the carts collection. -/
theorem update_cart_item_frame (db : DB) (user_id : UserId)
    (item_data : CartItemUpdate) :
    ((update_cart_item db user_id item_data).1.products = db.products) ∧
      ((update_cart_item db user_id item_data).1.orders = db.orders) := by
  unfold update_cart_item
  split
  next heq => exact ⟨rfl, rfl⟩
  next cart heq =>
    split
    next heq2 => exact ⟨rfl, rfl⟩
    next items heq2 => exact saveCart_frame db user_id _

/-- The service `remove_from_cart` touches only the carts collection. -/
theorem remove_from_cart_frame (db : DB) (user_id : UserId)
    (product_id : ProductId) :
    ((remove_from_cart db user_id product_id).1.products = db.products) ∧
      ((remove_from_cart db user_id product_id).1.orders = db.orders) := by
  unfold remove_from_cart
  split
  next heq => exact ⟨rfl, rfl⟩
  next cart heq => exact saveCart_frame db user_id _

/-- Stock non-negativity only looks at the products collection. -/
theorem stocksNonneg_of_products_eq {db db' : DB}
    (h : db'.products = db.products) (hdb : stocksNonneg db) :
    stocksNonneg db' := by
  unfold stocksNonneg at hdb ⊢
  rw [h]
  exact hdb

/-- Every single (boundary-validated) service call preserves stock
non-negativity. -/
theorem step_stocksNonneg (op : Op) (db : DB) (hdb : stocksNonneg db)
    (hop : op.Valid) : stocksNonneg (op.step db) := by
  cases op with
  | createProduct new_id pc =>
    intro kv hkv
    simp only [Op.step, create_product] at hkv
    rcases List.mem_append.mp hkv with hmem | hmem
    · exact hdb kv hmem
    · simp only [List.mem_singleton] at hmem
      rw [hmem]
      exact hop.2
  | updateProduct product_id u =>
    intro kv hkv
    simp only [Op.step] at hkv
    unfold update_product at hkv
    split at hkv
    next heq => exact hdb kv hkv
    next p heq =>
      rcases mem_saveDoc hkv with hmem | hmem
      · exact hdb kv hmem
      · rw [hmem]
        obtain ⟨_, hstock⟩ := hop
        cases hu : u.stock with
        | none =>
          simp only [hu, Option.getD_none]
          exact hdb (product_id, p) (findDoc_mem heq)
        | some s =>
          simp only [hu, Option.getD_some]
          exact hstock s hu
  | updateProductStock product_id delta =>
    intro kv hkv
    simp only [Op.step] at hkv
    unfold update_product_stock at hkv
    split at hkv
    next heq => exact hdb kv hkv
    next p heq =>
      dsimp only at hkv
      split at hkv
      next hlt => exact hdb kv hkv
      next hge =>
        rcases mem_saveDoc hkv with hmem | hmem
        · exact hdb kv hmem
        · rw [hmem]
          simpa using not_lt.mp hge
  | deleteProduct product_id =>
    intro kv hkv
    simp only [Op.step] at hkv
    unfold delete_product at hkv
    split at hkv
    next heq => exact hdb kv hkv
    next p heq => exact hdb kv (List.mem_of_mem_filter hkv)
  | addToCart user_id item =>
    exact stocksNonneg_of_products_eq (add_to_cart_frame db user_id item).1 hdb
  | updateCartItem user_id item =>
    exact stocksNonneg_of_products_eq
      (update_cart_item_frame db user_id item).1 hdb
  | removeFromCart user_id product_id =>
    exact stocksNonneg_of_products_eq
      (remove_from_cart_frame db user_id product_id).1 hdb
  | clearCart user_id =>
    exact stocksNonneg_of_products_eq (clear_cart_frame db user_id).1 hdb
  | createOrder user_id order_data =>
    exact stocksNonneg_of_products_eq
      (create_order_products_carts_frame db user_id order_data).1 hdb
  | updateOrderStatus order_id s =>
    exact stocksNonneg_of_products_eq
      (update_order_status_frame db order_id s).1 hdb
  | cancelOrder order_id =>
    exact stocksNonneg_of_products_eq (cancel_order_frame db order_id).1 hdb

/-- C8: `update_product_stock` fails with the `"Insufficient stock"`
`ValueError` exactly when `current stock + delta` is negative; on that
failure the returned state is the input state (the in-memory mutation is
never saved); and under every boundary-validated operation sequence a
store whose products all have non-negative stock keeps that invariant. -/
theorem c8_stock_guard_and_nonnegativity :
    (∀ (db : DB) (product_id : ProductId) (p : Product) (delta : ℤ),
      findDoc db.products product_id = some p →
      ((update_product_stock db product_id delta).2 =
          .error (.valueError "Insufficient stock") ↔ p.stock + delta < 0)) ∧
    (∀ (db : DB) (product_id : ProductId) (p : Product) (delta : ℤ),
      findDoc db.products product_id = some p → p.stock + delta < 0 →
      update_product_stock db product_id delta =
        (db, .error (.valueError "Insufficient stock"))) ∧
    (∀ (db : DB) (ops : List Op), stocksNonneg db →
      (∀ op ∈ ops, op.Valid) → stocksNonneg (runOps db ops)) := by
  refine ⟨?_, ?_, ?_⟩
  · intro db product_id p delta h
    unfold update_product_stock
    rw [h]
    by_cases hlt : p.stock + delta < 0
    · simp [hlt]
    · simp [hlt]
  · intro db product_id p delta h hlt
    unfold update_product_stock
    rw [h]
    simp [hlt]
  · intro db ops
    induction ops generalizing db with
    | nil => intro hdb _; exact hdb
    | cons op rest ih =>
      intro hdb hops
      exact ih (op.step db)
        (step_stocksNonneg op db hdb (hops op (List.mem_cons_self _ _)))
        (fun o ho => hops o (List.mem_cons_of_mem _ ho))

/-- C8 witness: removing 101 of the 100 units of product 1 fails and
leaves the store unchanged; removing 40 does not raise the
insufficient-stock error; and running the mixed `sampleOps` sequence from
`sampleDB` keeps all stocks non-negative. -/
theorem c8_witness :
    update_product_stock dbProductsOnly 1 (-101) =
      (dbProductsOnly, .error (.valueError "Insufficient stock")) ∧
    (update_product_stock dbProductsOnly 1 (-40)).2 ≠
      .error (.valueError "Insufficient stock") ∧
    stocksNonneg (runOps sampleDB sampleOps) := by
  refine ⟨?_, ?_, ?_⟩
  · exact c8_stock_guard_and_nonnegativity.2.1 dbProductsOnly 1 sampleProduct
      (-101) rfl (by decide)
  · intro hcontra
    have h100 :=
      (c8_stock_guard_and_nonnegativity.1 dbProductsOnly 1 sampleProduct
        (-40) rfl).mp hcontra
    exact absurd h100 (by decide)
  · refine c8_stock_guard_and_nonnegativity.2.2 sampleDB sampleOps
      (by decide) ?_
    intro op hop
    fin_cases hop <;>
      simp [Op.Valid, ProductCreate.Valid, ProductUpdate.Valid]

/-- After `saveCart`, the user's cart reads back as the saved document. -/
theorem findDoc_saveCart_self (db : DB) (user_id : UserId) (cart : Cart) :
    findDoc (saveCart db user_id cart).carts user_id = some cart := by
  unfold saveCart
  cases h : findDoc db.carts user_id with
  | some c₀ =>
    dsimp only
    rw [findDoc_saveDoc, if_pos rfl, h]
    rfl
  | none =>
    dsimp only
    rw [findDoc_append, h]
    simp [findDoc]

/-- Every entry of the carts collection after `saveCart` is an old entry
or the saved document. -/
theorem mem_saveCart {db : DB} {user_id : UserId} {cart : Cart}
    {kv : UserId × Cart} (h : kv ∈ (saveCart db user_id cart).carts) :
    kv ∈ db.carts ∨ kv = (user_id, cart) := by
  unfold saveCart at h
  split at h
  · exact mem_saveDoc h
  · rcases List.mem_append.mp h with hm | hm
    · exact Or.inl hm
    · simp only [List.mem_singleton] at hm
      exact Or.inr hm

/-- The merge loop does not change which product ids appear (it only bumps
one quantity). -/
theorem bumpFirst_map_product_id (items : List CartItem) (pid : ProductId)
    (qty : ℤ) :
    (bumpFirst items pid qty).map CartItem.product_id =
      items.map CartItem.product_id := by
  induction items with
  | nil => rfl
  | cons item rest ih =>
    unfold bumpFirst
    by_cases h : item.product_id = pid
    · simp [h]
    · simp [h, ih]

/-- Merging into a list whose only line for `pid` is the final element
bumps exactly that final element. -/
theorem bumpFirst_append_singleton (items : List CartItem) (x : CartItem)
    (pid : ProductId) (qty : ℤ) (hx : x.product_id = pid)
    (hitems : ∀ item ∈ items, item.product_id ≠ pid) :
    bumpFirst (items ++ [x]) pid qty =
      items ++ [{ x with quantity := x.quantity + qty }] := by
  induction items with
  | nil => simp [bumpFirst, hx]
  | cons item rest ih =>
    have hne := hitems item (List.mem_cons_self _ _)
    have ih' := ih fun i hi => hitems i (List.mem_cons_of_mem _ hi)
    simp only [List.cons_append, bumpFirst, if_neg hne, List.append_eq]
    rw [ih']

/-- The quantity-set loop does not change which product ids appear. -/
theorem setFirst_map_product_id (items : List CartItem) (pid : ProductId)
    (qty : ℤ) (items' : List CartItem)
    (h : setFirst items pid qty = some items') :
    items'.map CartItem.product_id = items.map CartItem.product_id := by
  induction items generalizing items' with
  | nil => simp [setFirst] at h
  | cons item rest ih =>
    unfold setFirst at h
    by_cases hp : item.product_id = pid
    · rw [if_pos hp] at h
      injection h with h'
      rw [← h']
      simp
    · rw [if_neg hp] at h
      cases hr : setFirst rest pid qty with
      | none => rw [hr] at h; simp at h
      | some r =>
        rw [hr] at h
        simp only [Option.map] at h
        injection h with h'
        rw [← h']
        simp [ih r hr]

/-- The cart a service call starts from (the stored one, or the lazily
created empty one) has duplicate-free product ids whenever the store
invariant holds. -/
theorem cart_getD_nodup (db : DB) (user_id : UserId) (hdb : cartKeysNodup db) :
    ((((findDoc db.carts user_id).getD
        { user_id := user_id, items := [] }).items.map
      CartItem.product_id)).Nodup := by
  cases hc : findDoc db.carts user_id with
  | none => simp
  | some c => simpa using hdb _ (findDoc_mem hc)

/-- The state `add_to_cart` saves when the product is not yet in the cart:
the raw-dict line is appended behind the existing lines (the call then
raises `AttributeError` computing the response, but the save stands). -/
theorem add_to_cart_fresh_state (db : DB) (user_id : UserId)
    (item_data : CartItemAdd) (product : Product)
    (hp : findDoc db.products item_data.product_id = some product)
    (hstock : ¬product.stock < item_data.quantity)
    (hfresh : ∀ item ∈ ((findDoc db.carts user_id).getD
        { user_id := user_id, items := [] }).items,
      item.product_id ≠ item_data.product_id) :
    (add_to_cart db user_id item_data).1 =
      saveCart db user_id
        { user_id := ((findDoc db.carts user_id).getD
            { user_id := user_id, items := [] }).user_id,
          items := ((findDoc db.carts user_id).getD
            { user_id := user_id, items := [] }).items ++
            [{ product_id := item_data.product_id,
               quantity := item_data.quantity, price := product.price }] } := by
  unfold add_to_cart
  simp only [get_product_ok.mpr hp]
  rw [if_neg hstock]
  have hany : (((findDoc db.carts user_id).getD
      { user_id := user_id, items := [] }).items.any
      fun item => decide (item.product_id = item_data.product_id)) = false := by
    simp only [List.any_eq_false, decide_eq_true_eq]
    exact hfresh
  rw [if_neg (by simp [hany])]

/-- The state `add_to_cart` saves when the cart already holds a line for
the product: the merge loop bumps that line. -/
theorem add_to_cart_merge_state (db : DB) (user_id : UserId)
    (item_data : CartItemAdd) (product : Product) (cart : Cart)
    (hp : findDoc db.products item_data.product_id = some product)
    (hstock : ¬product.stock < item_data.quantity)
    (hcart : findDoc db.carts user_id = some cart)
    (hany : (cart.items.any
      fun item => decide (item.product_id = item_data.product_id)) = true) :
    (add_to_cart db user_id item_data).1 =
      saveCart db user_id
        { user_id := cart.user_id,
          items := bumpFirst cart.items item_data.product_id
            item_data.quantity } := by
  unfold add_to_cart
  simp only [get_product_ok.mpr hp, hcart, Option.getD_some]
  rw [if_neg hstock, if_pos hany]

/-- The service `add_to_cart` preserves cart key uniqueness. -/
theorem add_to_cart_nodup (db : DB) (user_id : UserId)
    (item_data : CartItemAdd) (hdb : cartKeysNodup db) :
    cartKeysNodup (add_to_cart db user_id item_data).1 := by
  unfold add_to_cart
  split
  next => exact hdb
  next product heq =>
    dsimp only
    split
    · exact hdb
    · split
      next hany =>
        intro kv hkv
        rcases mem_saveCart hkv with hmem | hmem
        · exact hdb kv hmem
        · rw [hmem]
          simpa [bumpFirst_map_product_id] using cart_getD_nodup db user_id hdb
      next hany =>
        intro kv hkv
        rcases mem_saveCart hkv with hmem | hmem
        · exact hdb kv hmem
        · rw [hmem]
          have hnotmem : item_data.product_id ∉
              (((findDoc db.carts user_id).getD
                { user_id := user_id, items := [] }).items.map
                CartItem.product_id) := by
            intro hcontra
            obtain ⟨item, hitem, hid⟩ := List.mem_map.mp hcontra
            exact hany (List.any_eq_true.mpr ⟨item, hitem, by simp [hid]⟩)
          simp only [List.map_append, List.map_cons, List.map_nil]
          exact List.Nodup.append (cart_getD_nodup db user_id hdb)
            (List.nodup_singleton _)
            (by simpa [List.disjoint_singleton] using hnotmem)

/-- The service `update_cart_item` preserves cart key uniqueness. -/
theorem update_cart_item_nodup (db : DB) (user_id : UserId)
    (item_data : CartItemUpdate) (hdb : cartKeysNodup db) :
    cartKeysNodup (update_cart_item db user_id item_data).1 := by
  unfold update_cart_item
  split
  next => exact hdb
  next cart heq =>
    split
    next => exact hdb
    next items heq2 =>
      intro kv hkv
      rcases mem_saveCart hkv with hmem | hmem
      · exact hdb kv hmem
      · rw [hmem]
        have := hdb (user_id, cart) (findDoc_mem heq)
        simpa [setFirst_map_product_id _ _ _ _ heq2] using this

/-- The service `remove_from_cart` preserves cart key uniqueness. -/
theorem remove_from_cart_nodup (db : DB) (user_id : UserId)
    (product_id : ProductId) (hdb : cartKeysNodup db) :
    cartKeysNodup (remove_from_cart db user_id product_id).1 := by
  unfold remove_from_cart
  split
  next => exact hdb
  next cart heq =>
    intro kv hkv
    rcases mem_saveCart hkv with hmem | hmem
    · exact hdb kv hmem
    · rw [hmem]
      have hnodup := hdb (user_id, cart) (findDoc_mem heq)
      exact hnodup.sublist ((List.filter_sublist _).map _)

/-- The service `clear_cart` preserves cart key uniqueness. -/
theorem clear_cart_nodup (db : DB) (user_id : UserId)
    (hdb : cartKeysNodup db) :
    cartKeysNodup (clear_cart db user_id).1 := by
  unfold clear_cart
  split
  next => exact hdb
  next cart heq =>
    intro kv hkv
    rcases mem_saveCart hkv with hmem | hmem
    · exact hdb kv hmem
    · rw [hmem]
      simp

/-- C9: (merge) for a product with sufficient stock that is not yet in
the user's cart, adding quantity `q1` and then quantity `q2` leaves the
stored cart with **exactly one** line for that product, carrying quantity
`q1 + q2` and the product's snapshot price; and (uniqueness) each of the
four cart operations preserves the invariant that a stored cart holds at
most one line per product id. -/
theorem c9_cart_merge_and_uniqueness :
    (∀ (db : DB) (user_id : UserId) (pid : ProductId) (product : Product)
      (q1 q2 : ℤ),
      findDoc db.products pid = some product →
      (∀ item ∈ ((findDoc db.carts user_id).getD
          { user_id := user_id, items := [] }).items,
        item.product_id ≠ pid) →
      q1 ≤ product.stock → q2 ≤ product.stock →
      ∃ cart,
        findDoc (add_to_cart (add_to_cart db user_id
            { product_id := pid, quantity := q1 }).1 user_id
            { product_id := pid, quantity := q2 }).1.carts user_id =
          some cart ∧
        cart.items.filter (fun item => decide (item.product_id = pid)) =
          [{ product_id := pid, quantity := q1 + q2,
             price := product.price }]) ∧
    (∀ (db : DB) (user_id : UserId) (item_data : CartItemAdd),
      cartKeysNodup db → cartKeysNodup (add_to_cart db user_id item_data).1) ∧
    (∀ (db : DB) (user_id : UserId) (item_data : CartItemUpdate),
      cartKeysNodup db →
        cartKeysNodup (update_cart_item db user_id item_data).1) ∧
    (∀ (db : DB) (user_id : UserId) (product_id : ProductId),
      cartKeysNodup db →
        cartKeysNodup (remove_from_cart db user_id product_id).1) ∧
    (∀ (db : DB) (user_id : UserId),
      cartKeysNodup db → cartKeysNodup (clear_cart db user_id).1) := by
  refine ⟨?_, add_to_cart_nodup, update_cart_item_nodup,
    remove_from_cart_nodup, clear_cart_nodup⟩
  intro db user_id pid product q1 q2 hp hfresh hq1 hq2
  set base : Cart :=
    (findDoc db.carts user_id).getD { user_id := user_id, items := [] }
    with hbase
  have h1 := add_to_cart_fresh_state db user_id
    { product_id := pid, quantity := q1 } product hp (not_lt.mpr hq1) hfresh
  rw [← hbase] at h1
  dsimp only at h1
  have hc1 := findDoc_saveCart_self db user_id
    { user_id := base.user_id,
      items := base.items ++
        [{ product_id := pid, quantity := q1, price := product.price }] }
  rw [← h1] at hc1
  have hprod1 : findDoc (add_to_cart db user_id
      { product_id := pid, quantity := q1 }).1.products pid = some product := by
    rw [h1, (saveCart_frame db user_id _).1]
    exact hp
  have hany : ((base.items ++
      [({ product_id := pid, quantity := q1,
          price := product.price } : CartItem)]).any
      fun item => decide (item.product_id = pid)) = true := by
    simp
  have h2 := add_to_cart_merge_state
    (add_to_cart db user_id { product_id := pid, quantity := q1 }).1 user_id
    { product_id := pid, quantity := q2 } product
    { user_id := base.user_id,
      items := base.items ++
        [{ product_id := pid, quantity := q1, price := product.price }] }
    hprod1 (not_lt.mpr hq2) hc1 hany
  dsimp only at h2
  rw [h2]
  refine ⟨_, findDoc_saveCart_self _ user_id _, ?_⟩
  dsimp only
  rw [bumpFirst_append_singleton base.items
    { product_id := pid, quantity := q1, price := product.price } pid q2 rfl
    hfresh]
  rw [List.filter_append]
  have hnil : (base.items.filter
      fun item => decide (item.product_id = pid)) = [] := by
    rw [List.filter_eq_nil_iff]
    intro a ha
    simpa using hfresh a ha
  rw [hnil]
  simp

/-- C9 witness: from `dbProductsOnly` (no cart yet), user 7 adds two then
three units of product 1 and the stored cart holds exactly the line
`(1, 5, price 10)`; and the uniqueness invariant is preserved by the
first add. -/
theorem c9_witness :
    (∃ cart,
      findDoc (add_to_cart (add_to_cart dbProductsOnly 7
          { product_id := 1, quantity := 2 }).1 7
          { product_id := 1, quantity := 3 }).1.carts 7 = some cart ∧
      cart.items.filter (fun item => decide (item.product_id = 1)) =
        [{ product_id := 1, quantity := 2 + 3,
           price := sampleProduct.price }]) ∧
    cartKeysNodup (add_to_cart dbProductsOnly 7
      { product_id := 1, quantity := 2 }).1 := by
  constructor
  · exact c9_cart_merge_and_uniqueness.1 dbProductsOnly 7 1 sampleProduct 2 3
      rfl (by intro item h; simp [dbProductsOnly, findDoc] at h)
      (by decide) (by decide)
  · exact c9_cart_merge_and_uniqueness.2.1 dbProductsOnly 7
      { product_id := 1, quantity := 2 } (by decide)

end ECom
